import Mathlib

/-!
Verification of the `cargo-fast-lint` static-analysis engine against its
natural-language specification.  The Rust sources are shallowly embedded:
pure functions become Lean functions, the mutable analysis state is passed
explicitly, Rust `usize`/`u64`/`i64` become `Nat`/`Int` with an explicit
wrap at `2 ^ 64` where a cast matters, and fallible operations return
`Option`.  File contents are modelled as `List Char` (one element per byte;
all inputs used are ASCII, so Rust byte indices coincide with list indices).
-/

set_option maxHeartbeats 1000000

namespace CargoFastLint

/-! ## Data model (src/rules/mod.rs) -/

/-- `Severity` from src/rules/mod.rs. -/
inductive Severity where
  | error
  | warning
  | info
deriving DecidableEq, Repr

/-- `Location` from src/rules/mod.rs (1-based line/column). -/
structure Location where
  line : Nat
  column : Nat
  endLine : Option Nat
  endColumn : Option Nat
deriving DecidableEq, Repr

/-- `Replacement` from src/rules/mod.rs.  Rust's field `end` is a Lean
keyword, so it is called `stop` here. -/
structure Replacement where
  start : Nat
  stop : Nat
  text : List Char
deriving DecidableEq, Repr

/-- `Fix` from src/rules/mod.rs. -/
structure Fix where
  description : String
  replacements : List Replacement
deriving DecidableEq, Repr

/-- `Issue` from src/rules/mod.rs.  The Rust field `rule` is a string
(`&'static str` in mod.rs; two rule files pass an owned string). -/
structure Issue where
  rule : String
  severity : Severity
  message : String
  location : Location
  fix : Option Fix
deriving DecidableEq, Repr

/-! ## Auto-fix engine (src/autofix.rs) -/

/-- Rust's `v as usize` cast of an `i64` value `v`: two's-complement
reinterpretation, i.e. reduction modulo `2 ^ 64`. -/
def i64ToUsize (i : Int) : Nat := (i % (2 ^ 64 : Int)).toNat

/-- `String::replace_range(start..stop, text)` on the byte-list model. -/
def replaceRange (content : List Char) (start stop : Nat) (text : List Char) : List Char :=
  content.take start ++ text ++ content.drop stop

/-- The guard of `AutoFixEngine::apply_single_fix` (src/autofix.rs line 51):
the replacement's range, translated by the running offset, is out of bounds
or inverted. -/
def replacementInvalidAt (content : List Char) (offset : Int) (r : Replacement) : Prop :=
  i64ToUsize ((r.start : Int) + offset) > content.length ∨
  i64ToUsize ((r.stop : Int) + offset) > content.length ∨
  i64ToUsize ((r.start : Int) + offset) > i64ToUsize ((r.stop : Int) + offset)

instance (content : List Char) (offset : Int) (r : Replacement) :
    Decidable (replacementInvalidAt content offset r) := by
  unfold replacementInvalidAt; infer_instance

/-- The loop body of `AutoFixEngine::apply_single_fix` (src/autofix.rs lines
47-62): apply the replacements in declared order, threading the content and
the signed offset adjustment; on the first invalid translated range return
`false` (fix not applicable), leaving the remaining replacements unapplied. -/
def applyReplacements : List Char → Int → List Replacement → Bool × List Char × Int
  | content, offset, [] => (true, content, offset)
  | content, offset, r :: rest =>
    if replacementInvalidAt content offset r then
      (false, content, offset)
    else
      let start := i64ToUsize ((r.start : Int) + offset)
      let stop := i64ToUsize ((r.stop : Int) + offset)
      let newContent := replaceRange content start stop r.text
      let newOffset := offset + (r.text.length : Int) - ((stop : Int) - (start : Int))
      applyReplacements newContent newOffset rest

/-- `AutoFixEngine::apply_single_fix` (src/autofix.rs lines 40-65). -/
def applySingleFix (content : List Char) (offset : Int) (fix : Fix) : Bool × List Char × Int :=
  applyReplacements content offset fix.replacements

/-- One iteration of the loop in `AutoFixEngine::apply_fixes` (src/autofix.rs
lines 29-35): run `apply_single_fix` and increment `fixes_applied` exactly
when it returned `Ok(true)`. -/
def applyFixesStep (acc : Nat × List Char × Int) (p : Issue × Fix) : Nat × List Char × Int :=
  let r := applySingleFix acc.2.1 acc.2.2 p.2
  (if r.1 then acc.1 + 1 else acc.1, r.2.1, r.2.2)

/-- Stable insertion used to model Rust's stable
`sort_by_key(Reverse(issue.location.line))`: descending by line, ties kept
in original order. -/
def insertByLineDesc (x : Issue × Fix) : List (Issue × Fix) → List (Issue × Fix)
  | [] => [x]
  | y :: ys =>
    if y.1.location.line > x.1.location.line then y :: insertByLineDesc x ys
    else x :: y :: ys

/-- Sort issue/fix pairs by descending source line (stable). -/
def sortByLineDesc (l : List (Issue × Fix)) : List (Issue × Fix) :=
  l.foldr insertByLineDesc []

/-- `AutoFixEngine::apply_fixes` (src/autofix.rs lines 16-38), with the
engine's `fixes_applied` counter threaded explicitly.  Returns the updated
counter and the fixed content. -/
def applyFixes (fixesApplied : Nat) (content : List Char) (issues : List Issue) :
    Nat × List Char :=
  let fixesWithPositions := issues.filterMap fun issue => issue.fix.map fun fix => (issue, fix)
  let sorted := sortByLineDesc fixesWithPositions
  let r := sorted.foldl applyFixesStep (fixesApplied, content, (0 : Int))
  (r.1, r.2.1)

/-- The fix attached by `UnusedImportRule::check` (src/rules/imports.rs lines
134-137): a `Fix` whose replacements list is empty. -/
def unusedImportFix : Fix :=
  { description := "Remove unused import", replacements := [] }

/-- The issue reported by `UnusedImportRule::check` (src/rules/imports.rs
lines 124-139) for an unused imported identifier. -/
def unusedImportIssue (name : String) (line col : Nat) : Issue :=
  { rule := "unused-import"
    severity := .warning
    message := "Unused import: " ++ name
    location := { line := line, column := col, endLine := none, endColumn := none }
    fix := some unusedImportFix }

/-- Concrete issue used to exhibit the behaviour of `apply_fixes` on a fix
whose second replacement has an out-of-bounds translated range. -/
def fixConflictIssue : Issue :=
  { rule := "demo"
    severity := .warning
    message := "demo"
    location := { line := 1, column := 1, endLine := none, endColumn := none }
    fix := some
      { description := "three replacements, middle one out of bounds"
        replacements :=
          [ { start := 0, stop := 1, text := ['X'] }
          , { start := 100, stop := 200, text := ['Y'] }
          , { start := 5, stop := 6, text := ['Z'] } ] } }

/-- A later-in-file issue whose single replacement is out of bounds. -/
def badLine2Issue : Issue :=
  { rule := "demo2"
    severity := .warning
    message := "demo2"
    location := { line := 2, column := 1, endLine := none, endColumn := none }
    fix := some
      { description := "single out-of-bounds replacement"
        replacements := [ { start := 100, stop := 200, text := ['Y'] } ] } }

/-- An earlier-in-file issue whose single replacement is valid. -/
def goodLine1Issue : Issue :=
  { rule := "demo3"
    severity := .warning
    message := "demo3"
    location := { line := 1, column := 1, endLine := none, endColumn := none }
    fix := some
      { description := "valid replacement"
        replacements := [ { start := 0, stop := 1, text := ['X'] } ] } }

/-! ## Theorems about the auto-fix engine (claims C6, C9) -/

/-- C6 (counterexample): the claim says that when a translated range is out
of bounds, exactly that one replacement is skipped while the rest are still
processed.  On `"abcdef"` with a fix holding three replacements (valid,
out-of-bounds, valid), `apply_fixes` stops the whole fix at the invalid
second replacement: the valid third replacement `5..6 -> "Z"` is never
applied, so the result is `"Xbcdef"`, not the `"XbcdeZ"` the claim
predicts (and the fix is not counted as applied). -/
theorem fix_conflict_counterexample :
    applyFixes 0 "abcdef".toList [fixConflictIssue] = (0, "Xbcdef".toList) ∧
    (applyFixes 0 "abcdef".toList [fixConflictIssue]).2 ≠ "XbcdeZ".toList := by
  constructor
  · decide
  · decide

/-- C6 (amended): before a `Replacement` is applied its declared range is
translated by the accumulated offset; if the translated range is out of
bounds or inverted, that replacement is not applied and the *remainder of
that fix* is abandoned (the fix counts as not applicable, though its
already-applied earlier replacements remain in the content and in the
offset), while the remaining fixes of the file are still processed.  First
conjunct: for any prefix of successfully applied replacements followed by an
invalid one, `apply_single_fix` returns `false` with exactly the
prefix-applied content and offset.  Second conjunct: a later-in-file fix
with an invalid range does not stop an earlier-in-file fix from being
applied and counted. -/
theorem fix_conflict_skips_rest_of_fix :
    (∀ (c : List Char) (off : Int) (pre : List Replacement) (bad : Replacement)
        (post : List Replacement),
        (applyReplacements c off pre).1 = true →
        replacementInvalidAt (applyReplacements c off pre).2.1
          (applyReplacements c off pre).2.2 bad →
        applyReplacements c off (pre ++ bad :: post) =
          (false, (applyReplacements c off pre).2.1, (applyReplacements c off pre).2.2)) ∧
    applyFixes 0 "abcdef".toList [badLine2Issue, goodLine1Issue] = (1, "Xbcdef".toList) := by
  constructor
  · intro c off pre
    induction pre generalizing c off with
    | nil =>
      intro bad post h1 h2
      simp only [applyReplacements] at h2
      simp only [List.nil_append, applyReplacements]
      rw [if_pos h2]
    | cons r rs ih =>
      intro bad post h1 h2
      by_cases hr : replacementInvalidAt c off r
      · simp only [applyReplacements, if_pos hr] at h1
        exact absurd h1 (by decide)
      · simp only [List.cons_append, applyReplacements, if_neg hr] at h1 h2 ⊢
        exact ih _ _ bad post h1 h2
  · decide

/-- Witness for `fix_conflict_skips_rest_of_fix` at a concrete input. -/
theorem fix_conflict_skips_rest_of_fix_witness :
    applyReplacements "abcdef".toList 0
        ([⟨0, 1, ['X']⟩] ++ ⟨100, 200, ['Y']⟩ :: [⟨0, 1, ['Q']⟩]) =
      (false, "Xbcdef".toList, 0) := by
  have h := fix_conflict_skips_rest_of_fix.1 "abcdef".toList 0
    [⟨0, 1, ['X']⟩] ⟨100, 200, ['Y']⟩ [⟨0, 1, ['Q']⟩] (by decide) (by decide)
  exact h.trans (by decide)

/-- C9: a fix whose replacements list is empty (such as the unused-import
fix) leaves the content and offset completely unchanged, yet
`apply_fixes` still counts it as applied: the loop step increments the
counter, and a run over such an issue returns the content unchanged with the
counter incremented by one. -/
theorem empty_replacements_fix_counts (acc : Nat × List Char × Int) (issue : Issue)
    (fix : Fix) (h1 : issue.fix = some fix) (h2 : fix.replacements = []) :
    applyFixesStep acc (issue, fix) = (acc.1 + 1, acc.2.1, acc.2.2) ∧
    ∀ (n : Nat) (content : List Char), applyFixes n content [issue] = (n + 1, content) := by
  constructor
  · simp only [applyFixesStep, applySingleFix, h2, applyReplacements, if_pos]
  · intro n content
    simp only [applyFixes, List.filterMap, h1, Option.map, sortByLineDesc, List.foldr,
      insertByLineDesc, List.foldl, applyFixesStep, applySingleFix, h2, applyReplacements,
      if_pos]

/-- Witness for `empty_replacements_fix_counts`: the unused-import issue from
src/rules/imports.rs carries an empty-replacements fix. -/
theorem empty_replacements_fix_counts_witness :
    applyFixesStep (5, [], 0) (unusedImportIssue "HashMap" 2 3, unusedImportFix)
        = (6, [], 0) ∧
      applyFixes 0 "use x;".toList [unusedImportIssue "HashMap" 2 3]
        = (1, "use x;".toList) := by
  have h := empty_replacements_fix_counts (5, ([] : List Char), (0 : Int))
    (unusedImportIssue "HashMap" 2 3) unusedImportFix rfl rfl
  exact ⟨h.1, h.2 0 "use x;".toList⟩

/-! ## File cache (src/cache.rs) and incremental analyzer (src/incremental.rs)

The file system is modelled as a partial map from path to a stat record
(size, modification time, raw content); `none` covers both a missing file
and an I/O error reading its metadata.  `DefaultHasher` over
`(path, size, modified)` is modelled by an injective pairing of exactly
those fields (the spec accepts hash collisions as an unavoidable risk, so
the abstraction gives the hash its intended meaning); the file *content* is
deliberately not part of the fingerprint, exactly as in
`AnalysisCache::get_metadata`.  The parse-and-run-rules step
(`analyze_single_file`) is a parameter `analyzeContent`, deterministic in
the file content, with `none` modelling a read/parse failure. -/

/-- What `fs::metadata` reports for one file, plus the content that
`fs::read_to_string` would return. -/
structure FileStat where
  size : Nat
  modified : Nat
  content : String
deriving DecidableEq, Repr

/-- The file system as seen through `fs` calls. -/
def FileSys := String → Option FileStat

/-- A file write: the content is replaced and the modification time is
updated to the clock value `mtime` (a real file write always refreshes the
stored mtime); the size is the new content's byte length. -/
def writeFileAt (fs : FileSys) (p : String) (newContent : String) (mtime : Nat) : FileSys :=
  fun q => if q = p then some ⟨newContent.length, mtime, newContent⟩ else fs q

/-- Injective encoding of a string, used only to feed the path into the
fingerprint. -/
def encodeStr (s : String) : Nat :=
  s.toList.foldl (fun acc c => Nat.pair acc c.toNat) 0

/-- The fingerprint computed by `AnalysisCache::get_metadata` (src/cache.rs
lines 55-61): a hash of the path, the size and the modification time — and
of nothing else. -/
def computeHash (path : String) (size modified : Nat) : Nat :=
  Nat.pair (encodeStr path) (Nat.pair size modified)

/-- `FileMetadata` from src/cache.rs. -/
structure FileMetadata where
  path : String
  size : Nat
  modified : Nat
  hash : Nat
deriving DecidableEq, Repr

/-- `CachedAnalysis` from src/cache.rs. -/
structure CachedAnalysis where
  metadata : FileMetadata
  issues : List Issue
  astHash : Option Nat
deriving DecidableEq, Repr

/-- The cache map of `AnalysisCache`, as an association list (first match
wins on lookup; insert replaces). -/
def Cache := List (String × CachedAnalysis)

/-- `AHashMap` lookup on the association-list model. -/
def alistLookup {α : Type} (c : List (String × α)) (p : String) : Option α :=
  match c with
  | [] => none
  | (q, a) :: rest => if q = p then some a else alistLookup rest p

/-- `AHashMap::insert` on the association-list model: replace any existing
entry for the key. -/
def alistInsert {α : Type} (c : List (String × α)) (p : String) (a : α) :
    List (String × α) :=
  match c with
  | [] => [(p, a)]
  | (q, b) :: rest => if q = p then (p, a) :: rest else (q, b) :: alistInsert rest p a

/-- Cache lookup (`AnalysisCache::get_cached_analysis`, src/cache.rs lines
81-83). -/
def cacheLookup (c : Cache) (p : String) : Option CachedAnalysis :=
  alistLookup c p

/-- Cache insert. -/
def cacheInsert (c : Cache) (p : String) (a : CachedAnalysis) : Cache :=
  alistInsert c p a

/-- `AnalysisCache::get_metadata` (src/cache.rs lines 46-69): stat the file
and fingerprint `(path, size, modified)`; `none` is the `Err` case. -/
def get_metadata (fs : FileSys) (p : String) : Option FileMetadata :=
  (fs p).map fun st => ⟨p, st.size, st.modified, computeHash p st.size st.modified⟩

/-- `AnalysisCache::is_file_changed` (src/cache.rs lines 71-79): recompute
the metadata; a cached file is changed iff the stored hash differs from the
recomputed one; a file not in the cache counts as changed. -/
def is_file_changed (cache : Cache) (fs : FileSys) (p : String) : Option Bool :=
  (get_metadata fs p).map fun current =>
    match cacheLookup cache p with
    | some cached => decide (cached.metadata.hash ≠ current.hash)
    | none => true

/-- `AnalysisCache::cleanup_stale_entries` (src/cache.rs lines 106-123):
drop entries whose path no longer stats or whose recomputed fingerprint
differs from the stored one. -/
def cleanup_stale_entries (cache : Cache) (fs : FileSys) : Cache :=
  cache.filter fun pa =>
    match get_metadata fs pa.1 with
    | none => false
    | some m => decide (m.hash = pa.2.metadata.hash)

/-- `AnalysisCache::store_analysis` (src/cache.rs lines 85-98): recompute
the metadata at store time and overwrite the entry; on a metadata error the
result is not cached (the caller only logs a warning). -/
def store_analysis (cache : Cache) (fs : FileSys) (p : String) (issues : List Issue) :
    Cache :=
  match get_metadata fs p with
  | some m => cacheInsert cache p ⟨m, issues, none⟩
  | none => cache

/-- `IncrementalStats` from src/incremental.rs.  The `f64` hit rate is
modelled as an exact rational; the claims under verification concern the
formula and its zero-denominator guard, not `f64` rounding. -/
structure IncrementalStats where
  files_analyzed : Nat
  files_from_cache : Nat
  files_skipped : Nat
  cache_hit_rate : ℚ
deriving DecidableEq, Repr

/-- `IncrementalResults` from src/incremental.rs (the maps are association
lists in path order). -/
structure IncrementalResults where
  new_issues : List (String × List Issue)
  cached_issues : List (String × List Issue)
  stats : IncrementalStats
deriving DecidableEq, Repr

/-- The first loop of `IncrementalAnalyzer::analyze_files` (src/incremental.rs
lines 53-73): route each file to fresh analysis, to the cached results, or
to the skipped counter.  Returns (files to analyze, cached issues,
files_from_cache, files_skipped), the first two in input order. -/
def routeFiles (cache : Cache) (fs : FileSys) (files : List String) :
    List String × List (String × List Issue) × Nat × Nat :=
  match files with
  | [] => ([], [], 0, 0)
  | p :: rest =>
    let r := routeFiles cache fs rest
    match is_file_changed cache fs p with
    | some true => (p :: r.1, r.2.1, r.2.2.1, r.2.2.2)
    | some false =>
      match cacheLookup cache p with
      | some cached => (r.1, (p, cached.issues) :: r.2.1, r.2.2.1 + 1, r.2.2.2)
      | none => (p :: r.1, r.2.1, r.2.2.1, r.2.2.2)
    | none => (r.1, r.2.1, r.2.2.1, r.2.2.2 + 1)

/-- `IncrementalAnalyzer::analyze_single_file` (src/incremental.rs lines
115-131), with the parse-and-rules pipeline abstracted into
`analyzeContent`: read the file, then analyze its content. -/
def analyze_single_file (analyzeContent : String → Option (List Issue)) (fs : FileSys)
    (p : String) : Option (List Issue) :=
  (fs p).bind fun st => analyzeContent st.content

/-- `IncrementalAnalyzer::analyze_files` (src/incremental.rs lines 44-113):
sweep stale cache entries, split the file list into cached/fresh/skipped,
analyze the fresh files (an analysis error drops the file from the result),
write fresh results back into the cache, and compute the stats, including
the cache-hit rate with its zero-denominator guard.  Returns the results and
the updated cache. -/
def analyze_files (analyzeContent : String → Option (List Issue)) (cache : Cache)
    (fs : FileSys) (files : List String) : IncrementalResults × Cache :=
  let cache1 := cleanup_stale_entries cache fs
  let routed := routeFiles cache1 fs files
  let newIssuesList := routed.1.filterMap fun p =>
    (analyze_single_file analyzeContent fs p).map fun issues => (p, issues)
  let newIssues := newIssuesList.foldl (fun m pi => alistInsert m pi.1 pi.2) []
  let cache2 := newIssues.foldl (fun c pi => store_analysis c fs pi.1 pi.2) cache1
  let files_analyzed := newIssues.length
  let files_from_cache := routed.2.2.1
  let total_processed := files_analyzed + files_from_cache
  let rate : ℚ :=
    if total_processed > 0 then
      (files_from_cache : ℚ) / (total_processed : ℚ) * 100
    else 0
  (⟨newIssues, routed.2.1,
    ⟨files_analyzed, files_from_cache, routed.2.2.2, rate⟩⟩, cache2)

/-! ## Theorems about the cache / incremental analyzer (claims C1, C2, C10) -/

/-- C2: a file analyzed once and stored in the cache is, on a second run
with no modification, served from the cache: the second run's cached issue
list for the file equals the first run's freshly computed one, with
`files_from_cache = 1` and `files_analyzed = 0`. -/
theorem cache_equivalence
    (analyzeContent : String → Option (List Issue)) (fs : FileSys) (p : String)
    (st : FileStat) (issues : List Issue)
    (hfs : fs p = some st) (hac : analyzeContent st.content = some issues) :
    (analyze_files analyzeContent [] fs [p]).1.stats.files_analyzed = 1 ∧
    (analyze_files analyzeContent [] fs [p]).1.stats.files_from_cache = 0 ∧
    alistLookup (analyze_files analyzeContent [] fs [p]).1.new_issues p = some issues ∧
    (analyze_files analyzeContent (analyze_files analyzeContent [] fs [p]).2 fs
        [p]).1.stats.files_analyzed = 0 ∧
    (analyze_files analyzeContent (analyze_files analyzeContent [] fs [p]).2 fs
        [p]).1.stats.files_from_cache = 1 ∧
    alistLookup (analyze_files analyzeContent (analyze_files analyzeContent [] fs [p]).2 fs
        [p]).1.cached_issues p = some issues := by
  refine ⟨?_, ?_, ?_, ?_, ?_, ?_⟩ <;>
    simp [analyze_files, cleanup_stale_entries, routeFiles, is_file_changed, get_metadata,
      cacheLookup, alistLookup, alistInsert, cacheInsert, store_analysis,
      analyze_single_file, hfs, hac]

/-- Concrete file system for the cache witnesses: one file `a.rs`. -/
def demoFS : FileSys := fun p =>
  if p = "a.rs" then some ⟨8, 5, "fn f(){}"⟩ else none

/-- Concrete analysis pipeline for the cache witnesses: one issue carrying
the analyzed content as its message (deterministic in the content). -/
def demoAnalyze : String → Option (List Issue) := fun c =>
  some [⟨"line-too-long", .info, c, ⟨1, 1, none, none⟩, none⟩]

/-- Witness for `cache_equivalence` on the one-file file system. -/
theorem cache_equivalence_witness :
    (analyze_files demoAnalyze (analyze_files demoAnalyze [] demoFS ["a.rs"]).2 demoFS
        ["a.rs"]).1.stats.files_analyzed = 0 ∧
    (analyze_files demoAnalyze (analyze_files demoAnalyze [] demoFS ["a.rs"]).2 demoFS
        ["a.rs"]).1.stats.files_from_cache = 1 ∧
    alistLookup (analyze_files demoAnalyze (analyze_files demoAnalyze [] demoFS ["a.rs"]).2
        demoFS ["a.rs"]).1.cached_issues "a.rs"
      = some [⟨"line-too-long", .info, "fn f(){}", ⟨1, 1, none, none⟩, none⟩] := by
  have h := cache_equivalence demoAnalyze demoFS "a.rs" ⟨8, 5, "fn f(){}"⟩
    [⟨"line-too-long", .info, "fn f(){}", ⟨1, 1, none, none⟩, none⟩] rfl rfl
  exact ⟨h.2.2.2.1, h.2.2.2.2.1, h.2.2.2.2.2⟩

/-- C1: modifying a file between two runs (a write updates the stored
modification time) makes the second run analyze the file freshly instead of
serving it from the cache, because the fingerprint hash — computed from the
path, size and modification time — no longer matches the cached one. -/
theorem cache_invalidation
    (analyzeContent : String → Option (List Issue)) (fs : FileSys) (p : String)
    (st : FileStat) (issues issues2 : List Issue) (newContent : String) (mtime : Nat)
    (hfs : fs p = some st) (hac : analyzeContent st.content = some issues)
    (hac2 : analyzeContent newContent = some issues2) (hm : mtime ≠ st.modified) :
    (analyze_files analyzeContent (analyze_files analyzeContent [] fs [p]).2
        (writeFileAt fs p newContent mtime) [p]).1.stats.files_analyzed = 1 ∧
    (analyze_files analyzeContent (analyze_files analyzeContent [] fs [p]).2
        (writeFileAt fs p newContent mtime) [p]).1.stats.files_from_cache = 0 ∧
    alistLookup (analyze_files analyzeContent (analyze_files analyzeContent [] fs [p]).2
        (writeFileAt fs p newContent mtime) [p]).1.new_issues p = some issues2 := by
  have hashne : computeHash p newContent.length mtime ≠ computeHash p st.size st.modified := by
    intro h
    have h2 := (Nat.pair_eq_pair.mp h).2
    exact hm (Nat.pair_eq_pair.mp h2).2
  refine ⟨?_, ?_, ?_⟩ <;>
    simp [analyze_files, cleanup_stale_entries, routeFiles, is_file_changed, get_metadata,
      cacheLookup, alistLookup, alistInsert, cacheInsert, store_analysis,
      analyze_single_file, writeFileAt, hfs, hac, hac2, hashne]

/-- Witness for `cache_invalidation`: rewrite `a.rs` with a later
modification time between the runs. -/
theorem cache_invalidation_witness :
    (analyze_files demoAnalyze (analyze_files demoAnalyze [] demoFS ["a.rs"]).2
        (writeFileAt demoFS "a.rs" "fn g(){}" 9) ["a.rs"]).1.stats.files_analyzed = 1 ∧
    (analyze_files demoAnalyze (analyze_files demoAnalyze [] demoFS ["a.rs"]).2
        (writeFileAt demoFS "a.rs" "fn g(){}" 9) ["a.rs"]).1.stats.files_from_cache = 0 := by
  have h := cache_invalidation demoAnalyze demoFS "a.rs" ⟨8, 5, "fn f(){}"⟩
    [⟨"line-too-long", .info, "fn f(){}", ⟨1, 1, none, none⟩, none⟩]
    [⟨"line-too-long", .info, "fn g(){}", ⟨1, 1, none, none⟩, none⟩]
    "fn g(){}" 9 rfl rfl rfl (by decide)
  exact ⟨h.1, h.2.1⟩

/-- C10: the reported cache-hit rate equals `files_from_cache` divided by
`files_from_cache + files_analyzed` as a percentage, and is defined to be
`0` when that denominator is zero (guarded, not an unguarded division). -/
theorem cache_hit_rate_formula (analyzeContent : String → Option (List Issue))
    (cache : Cache) (fs : FileSys) (files : List String) :
    (analyze_files analyzeContent cache fs files).1.stats.cache_hit_rate =
      if 0 < (analyze_files analyzeContent cache fs files).1.stats.files_analyzed +
          (analyze_files analyzeContent cache fs files).1.stats.files_from_cache then
        ((analyze_files analyzeContent cache fs files).1.stats.files_from_cache : ℚ) /
          (((analyze_files analyzeContent cache fs files).1.stats.files_analyzed +
            (analyze_files analyzeContent cache fs files).1.stats.files_from_cache : Nat) : ℚ)
          * 100
      else 0 := rfl

/-! ## Embedded syntax tree

A fragment of the `syn` AST covering the node shapes the verified rules
inspect: conditionals, match expressions, loops, binary operators, method
and path calls, and the statement forms `Stmt::Expr`, `Stmt::Local` and
other items. -/

/-- Binary operators: the two short-circuit operators `&&`/`||` plus
representatives of the non-short-circuit ones. -/
inductive RBinOp where
  | andOp
  | orOp
  | addOp
  | eqOp
deriving DecidableEq, Repr

mutual

/-- An embedded `syn::Expr`. -/
inductive RExpr where
  | ifE (cond : RExpr) (thenB : List RStmt) (elseB : Option RExpr)
  | matchE (scrut : RExpr) (arms : List RExpr)
  | whileE (cond : RExpr) (body : List RStmt)
  | forE (iter : RExpr) (body : List RStmt)
  | loopE (body : List RStmt)
  | binary (op : RBinOp) (lhs rhs : RExpr)
  | methodCall (receiver : RExpr) (method : String) (args : List RExpr)
  | callPath (func : String) (args : List RExpr)
  | pathE (name : String)
  | litStr (s : String)
  | litInt (n : Nat)

/-- An embedded `syn::Stmt`: an expression statement (with or without `;`),
a `let` with optional initializer, or any other statement. -/
inductive RStmt where
  | exprS (e : RExpr) (semi : Bool)
  | localS (init : Option RExpr)
  | itemS

end

/-- An embedded `syn::Item`: a top-level function with its body, a struct,
or any other item. -/
inductive RItem where
  | fnItem (name : String) (body : List RStmt)
  | structItem (name : String)
  | otherItem

/-! ## Complexity rule (src/rules/complexity.rs) -/

/-- `count_decision_points_expr` (src/rules/complexity.rs lines 140-154):
the decision points of the *top* node only — the function does not recurse
into sub-expressions (`_ => 0, // Simplified for now`). -/
def count_decision_points_expr : RExpr → Nat
  | .ifE _ _ _ => 1
  | .matchE _ arms => arms.length - 1
  | .whileE _ _ => 1
  | .forE _ _ => 1
  | .loopE _ => 1
  | .binary op _ _ =>
    match op with
    | .andOp => 1
    | .orOp => 1
    | _ => 0
  | _ => 0

/-- `count_decision_points_stmt` (src/rules/complexity.rs lines 128-138). -/
def count_decision_points_stmt : RStmt → Nat
  | .exprS e _ => count_decision_points_expr e
  | .localS (some e) => count_decision_points_expr e
  | .localS none => 0
  | .itemS => 0

/-- `calculate_cyclomatic_complexity` (src/rules/complexity.rs lines
108-116): base 1 plus the decision points of each statement. -/
def calculate_cyclomatic_complexity (stmts : List RStmt) : Nat :=
  1 + (stmts.map count_decision_points_stmt).sum

/-- `count_cognitive_complexity_expr` (src/rules/complexity.rs lines
170-184): `1 + nesting_level` for conditional/match/loop nodes, a constant
`1` for short-circuit operators — again without recursing into
sub-expressions. -/
def count_cognitive_complexity_expr (nesting : Nat) : RExpr → Nat
  | .ifE _ _ _ => 1 + nesting
  | .matchE _ _ => 1 + nesting
  | .whileE _ _ => 1 + nesting
  | .forE _ _ => 1 + nesting
  | .loopE _ => 1 + nesting
  | .binary op _ _ =>
    match op with
    | .andOp => 1
    | .orOp => 1
    | _ => 0
  | _ => 0

/-- `count_cognitive_complexity_stmt` (src/rules/complexity.rs lines
156-168). -/
def count_cognitive_complexity_stmt (nesting : Nat) : RStmt → Nat
  | .exprS e _ => count_cognitive_complexity_expr nesting e
  | .localS (some e) => count_cognitive_complexity_expr nesting e
  | .localS none => 0
  | .itemS => 0

/-- `calculate_cognitive_complexity` (src/rules/complexity.rs lines
118-126).  The rule (line 76) always calls it with `nesting_level = 0`. -/
def calculate_cognitive_complexity (stmts : List RStmt) (nesting : Nat) : Nat :=
  (stmts.map (count_cognitive_complexity_stmt nesting)).sum

mutual

/-- Modelled from the spec: the number of decision points (conditionals,
match arms minus one, loop constructs, each short-circuit boolean operator)
*anywhere* within an expression, recursing into every sub-expression. -/
def specDPExpr : RExpr → Nat
  | .ifE c t e => 1 + specDPExpr c + specDPStmts t + specDPOptExpr e
  | .matchE s arms => (arms.length - 1) + specDPExpr s + specDPExprs arms
  | .whileE c b => 1 + specDPExpr c + specDPStmts b
  | .forE it b => 1 + specDPExpr it + specDPStmts b
  | .loopE b => 1 + specDPStmts b
  | .binary op l r =>
    (match op with
      | .andOp => 1
      | .orOp => 1
      | _ => 0) + specDPExpr l + specDPExpr r
  | .methodCall r _ args => specDPExpr r + specDPExprs args
  | .callPath _ args => specDPExprs args
  | .pathE _ => 0
  | .litStr _ => 0
  | .litInt _ => 0

/-- Decision points anywhere within an optional expression. -/
def specDPOptExpr : Option RExpr → Nat
  | none => 0
  | some e => specDPExpr e

/-- Decision points anywhere within a list of expressions. -/
def specDPExprs : List RExpr → Nat
  | [] => 0
  | e :: rest => specDPExpr e + specDPExprs rest

/-- Decision points anywhere within a statement. -/
def specDPStmt : RStmt → Nat
  | .exprS e _ => specDPExpr e
  | .localS oe => specDPOptExpr oe
  | .itemS => 0

/-- Decision points anywhere within a list of statements. -/
def specDPStmts : List RStmt → Nat
  | [] => 0
  | s :: rest => specDPStmt s + specDPStmts rest

end

/-- A function body holding a single `if` whose then-block holds another
`if`: two decision points, one of them nested. -/
def nestedIfBody : List RStmt :=
  [.exprS (.ifE (.pathE "c")
      [.exprS (.ifE (.pathE "d") [] none) true] none) true]

/-- A function body holding five independent top-level `if` statements. -/
def fiveIfBody : List RStmt :=
  [.exprS (.ifE (.pathE "a") [] none) true,
   .exprS (.ifE (.pathE "b") [] none) true,
   .exprS (.ifE (.pathE "c") [] none) true,
   .exprS (.ifE (.pathE "d") [] none) true,
   .exprS (.ifE (.pathE "e") [] none) true]

/-- The number of nesting-sensitive decision points at the top node of an
expression: the conditional/match/loop forms, whose cognitive contribution
is `1 + nesting_level` (short-circuit operators contribute a constant 1 and
are not nesting-sensitive). -/
def nestingSensitiveExpr : RExpr → Nat
  | .ifE _ _ _ => 1
  | .matchE _ _ => 1
  | .whileE _ _ => 1
  | .forE _ _ => 1
  | .loopE _ => 1
  | _ => 0

/-- Nesting-sensitive decision points at the top level of a statement. -/
def nestingSensitiveStmt : RStmt → Nat
  | .exprS e _ => nestingSensitiveExpr e
  | .localS (some e) => nestingSensitiveExpr e
  | .localS none => 0
  | .itemS => 0

mutual

/-- Modelled from the spec: cognitive complexity as the sum over decision
points of `1 + current nesting depth`, the depth growing by one inside each
conditional/match/loop construct. -/
def specCogExpr (n : Nat) : RExpr → Nat
  | .ifE c t e => (1 + n) + specCogExpr n c + specCogStmts (n + 1) t + specCogOptExpr (n + 1) e
  | .matchE s arms => (1 + n) + specCogExpr n s + specCogExprs (n + 1) arms
  | .whileE c b => (1 + n) + specCogExpr n c + specCogStmts (n + 1) b
  | .forE it b => (1 + n) + specCogExpr n it + specCogStmts (n + 1) b
  | .loopE b => (1 + n) + specCogStmts (n + 1) b
  | .binary op l r =>
    (match op with
      | .andOp => 1
      | .orOp => 1
      | _ => 0) + specCogExpr n l + specCogExpr n r
  | .methodCall r _ args => specCogExpr n r + specCogExprs n args
  | .callPath _ args => specCogExprs n args
  | .pathE _ => 0
  | .litStr _ => 0
  | .litInt _ => 0

/-- Spec-modelled cognitive complexity of an optional expression. -/
def specCogOptExpr (n : Nat) : Option RExpr → Nat
  | none => 0
  | some e => specCogExpr n e

/-- Spec-modelled cognitive complexity of a list of expressions. -/
def specCogExprs (n : Nat) : List RExpr → Nat
  | [] => 0
  | e :: rest => specCogExpr n e + specCogExprs n rest

/-- Spec-modelled cognitive complexity of a statement. -/
def specCogStmt (n : Nat) : RStmt → Nat
  | .exprS e _ => specCogExpr n e
  | .localS oe => specCogOptExpr n oe
  | .itemS => 0

/-- Spec-modelled cognitive complexity of a list of statements. -/
def specCogStmts (n : Nat) : List RStmt → Nat
  | [] => 0
  | s :: rest => specCogStmt n s + specCogStmts n rest

end

/-- A body holding a single top-level `if` (one decision point). -/
def cogUnwrapped : List RStmt :=
  [.exprS (.ifE (.pathE "c") [] none) true]

/-- The same decision point wrapped one nesting level deeper, inside an
additional `if`. -/
def cogWrapped : List RStmt :=
  [.exprS (.ifE (.pathE "d") cogUnwrapped none) true]

/-! ## Theorems about the complexity rule (claims C4, C5) -/

/-- C4 (counterexample): on a body whose single top-level `if` holds a
nested `if`, the code computes cyclomatic complexity 2 while 1 plus the
count of decision points *anywhere* within the body is 3: the claim's
"anywhere within the body" fails because `count_decision_points_expr` never
recurses into sub-expressions. -/
theorem cyclomatic_nested_counterexample :
    calculate_cyclomatic_complexity nestedIfBody = 2 ∧
    1 + specDPStmts nestedIfBody = 3 ∧
    calculate_cyclomatic_complexity nestedIfBody ≠ 1 + specDPStmts nestedIfBody := by
  decide

/-- C4 (amended): the computed cyclomatic complexity equals 1 plus the
count of decision points occurring at the *top level* of the body's
statements (statement expressions and `let` initializers; decision points
nested inside sub-expressions are not counted).  Appending one independent
`if` statement raises the result by exactly one, and a function with five
independent `if` statements yields 6. -/
theorem cyclomatic_top_level :
    (∀ stmts : List RStmt,
        calculate_cyclomatic_complexity stmts =
          1 + (stmts.map count_decision_points_stmt).sum) ∧
    (∀ (stmts : List RStmt) (c : RExpr) (t : List RStmt) (e : Option RExpr) (semi : Bool),
        calculate_cyclomatic_complexity (stmts ++ [.exprS (.ifE c t e) semi]) =
          calculate_cyclomatic_complexity stmts + 1) ∧
    calculate_cyclomatic_complexity fiveIfBody = 6 := by
  refine ⟨fun _ => rfl, ?_, by decide⟩
  intro stmts c t e semi
  simp [calculate_cyclomatic_complexity, count_decision_points_stmt,
    count_decision_points_expr]
  omega

/-- One statement's cognitive count at nesting `n + 1` exceeds its count at
nesting `n` by exactly its number of top-level nesting-sensitive decision
points. -/
theorem count_cog_stmt_succ (n : Nat) (s : RStmt) :
    count_cognitive_complexity_stmt (n + 1) s =
      count_cognitive_complexity_stmt n s + nestingSensitiveStmt s := by
  cases s with
  | exprS e semi =>
    cases e <;>
      simp [count_cognitive_complexity_stmt, count_cognitive_complexity_expr,
        nestingSensitiveStmt, nestingSensitiveExpr] <;>
      omega
  | localS oe =>
    cases oe with
    | none => rfl
    | some e =>
      cases e <;>
        simp [count_cognitive_complexity_stmt, count_cognitive_complexity_expr,
          nestingSensitiveStmt, nestingSensitiveExpr] <;>
        omega
  | itemS => rfl

/-- C5 (counterexample): wrapping a body's only decision point inside an
additional `if` leaves the computed cognitive complexity at 1 (the inner
decision point's contribution drops to 0, because the traversal never
recurses into sub-expressions), whereas under the claimed
"1 + current nesting depth per decision point" formula the wrapped body
would score 3 (outer `if` 1, inner `if` 2). -/
theorem cognitive_wrap_counterexample :
    calculate_cognitive_complexity cogUnwrapped 0 = 1 ∧
    calculate_cognitive_complexity cogWrapped 0 = 1 ∧
    specCogStmts 0 cogWrapped = 3 := by
  decide

/-- C5 (amended): each counted decision point contributes `1 +
nesting_level` with respect to the function's explicit nesting parameter —
raising the parameter by one raises the total by one per top-level
conditional/match/loop decision point, short-circuit operators contributing
a constant 1 — but the traversal never recurses into sub-expressions and the
rule always calls it with nesting level 0, so syntactically wrapping a
decision point one level deeper removes its contribution entirely instead
of increasing it by one: the wrapped and unwrapped bodies score the same
total. -/
theorem cognitive_nesting_param :
    (∀ (stmts : List RStmt) (n : Nat),
        calculate_cognitive_complexity stmts (n + 1) =
          calculate_cognitive_complexity stmts n + (stmts.map nestingSensitiveStmt).sum) ∧
    calculate_cognitive_complexity cogWrapped 0 =
      calculate_cognitive_complexity cogUnwrapped 0 := by
  refine ⟨?_, by decide⟩
  intro stmts n
  induction stmts with
  | nil => rfl
  | cons s rest ih =>
    simp [calculate_cognitive_complexity, List.map_cons, List.sum_cons,
      count_cog_stmt_succ] at ih ⊢
    omega

/-! ## Configuration (src/config.rs)

Field names are camel-cased versions of the Rust snake_case names (noted in
each doc comment). -/

/-- `RuleConfig` from src/config.rs: `check_syntax`, `check_style`,
`check_naming`, `check_imports`, the unsafe-code flag, `check_complexity`,
`check_missing_docs`, `check_line_length`, `check_unwrap_usage`,
`check_todo_macros`, `check_must_use`, `check_anti_patterns`. -/
structure RuleConfig where
  checkSyn : Bool
  checkStyle : Bool
  checkNaming : Bool
  checkImports : Bool
  checkUnsafety : Bool
  checkComplexity : Bool
  checkMissingDocs : Bool
  checkLineLength : Bool
  checkUnwrapUsage : Bool
  checkTodoMacros : Bool
  checkMustUse : Bool
  checkAntiPatterns : Bool
deriving DecidableEq, Repr

/-- `StyleConfig` from src/config.rs. -/
structure StyleConfig where
  maxLineLength : Nat
  indentSize : Nat
deriving DecidableEq, Repr

/-- `ComplexityConfig` from src/config.rs. -/
structure ComplexityConfig where
  maxCyclomatic : Nat
  maxCognitive : Nat
  maxNesting : Nat
deriving DecidableEq, Repr

/-- `CacheConfig` from src/config.rs. -/
structure CacheConfig where
  enabled : Bool
  cacheDir : Option String
  astCacheEnabled : Bool
  maxCacheSize : Nat
  cacheTtlHours : Nat
deriving DecidableEq, Repr

/-- `AutoFixConfig` from src/config.rs. -/
structure AutoFixConfig where
  enabled : Bool
  organizeImports : Bool
  fixNamingConventions : Bool
  addMissingDocs : Bool
  applySafeFixesOnly : Bool
  maxFixesPerFile : Nat
deriving DecidableEq, Repr

/-- `PerformanceConfig` from src/config.rs. -/
structure PerformanceConfig where
  incrementalAnalysis : Bool
  parallelAnalysis : Bool
  memoryMappedIo : Bool
  largeFileThreshold : Nat
  maxThreads : Option Nat
deriving DecidableEq, Repr

/-- `Config` from src/config.rs. -/
structure Config where
  rules : RuleConfig
  style : StyleConfig
  complexity : ComplexityConfig
  cache : CacheConfig
  autofix : AutoFixConfig
  performance : PerformanceConfig
  ignore : List String
deriving DecidableEq, Repr

/-- `Config::default()` (src/config.rs lines 72-127): every rule flag is
`true`, including `check_unwrap_usage`. -/
def defaultConfig : Config :=
  { rules :=
      { checkSyn := true, checkStyle := true, checkNaming := true, checkImports := true
        checkUnsafety := true, checkComplexity := true, checkMissingDocs := true
        checkLineLength := true, checkUnwrapUsage := true, checkTodoMacros := true
        checkMustUse := true, checkAntiPatterns := true }
    style := { maxLineLength := 100, indentSize := 4 }
    complexity := { maxCyclomatic := 10, maxCognitive := 15, maxNesting := 5 }
    cache :=
      { enabled := true, cacheDir := none, astCacheEnabled := true
        maxCacheSize := 10000, cacheTtlHours := 24 }
    autofix :=
      { enabled := true, organizeImports := true, fixNamingConventions := true
        addMissingDocs := false, applySafeFixesOnly := true, maxFixesPerFile := 100 }
    performance :=
      { incrementalAnalysis := true, parallelAnalysis := true, memoryMappedIo := true
        largeFileThreshold := 1048576, maxThreads := none }
    ignore := ["target/**", ".git/**", "node_modules/**"] }

/-! ## Rule registry (src/rules/mod.rs, `get_enabled_rules`) -/

/-- One registered rule, identified by its constructor (with the thresholds
the registry passes).  `blockSafety` stands for `UnsafeBlockRule`;
`invalidSyn` for `InvalidSyntaxRule`.  The `unwrapUsage` case is the rule
implemented in src/rules/unwrap_usage.rs, plus the three other rule files
shipped outside the module tree. -/
inductive RuleId where
  | unmatchedDelimiters
  | invalidSyn
  | namingConvention
  | lineLength (maxLength : Nat)
  | importOrder
  | unusedImport
  | blockSafety
  | cyclomaticComplexity (maxComplexity : Nat)
  | cognitiveComplexity (maxComplexity : Nat)
  | missingDocs
  | unwrapUsage
  | todoMacros
  | mustUse
  | antiPatterns
deriving DecidableEq, Repr

/-- `get_enabled_rules` (src/rules/mod.rs lines 130-173): the exact
registration sequence — syntax rules always, then naming, line length,
imports, unsafe, complexity and missing-docs rules behind their flags.
No branch registers `UnwrapUsageRule` (and src/rules/mod.rs never declares
the `unwrap_usage` module), nor the todo-macros / must-use / anti-patterns
rules. -/
def get_enabled_rules (config : Config) : List RuleId :=
  [RuleId.unmatchedDelimiters, RuleId.invalidSyn]
    ++ (if config.rules.checkNaming then [RuleId.namingConvention] else [])
    ++ (if config.rules.checkLineLength then
          [RuleId.lineLength config.style.maxLineLength] else [])
    ++ (if config.rules.checkImports then [RuleId.importOrder, RuleId.unusedImport] else [])
    ++ (if config.rules.checkUnsafety then [RuleId.blockSafety] else [])
    ++ (if config.rules.checkComplexity then
          [RuleId.cyclomaticComplexity config.complexity.maxCyclomatic,
           RuleId.cognitiveComplexity config.complexity.maxCognitive] else [])
    ++ (if config.rules.checkMissingDocs then [RuleId.missingDocs] else [])

/-! ## Unwrap-usage rule (src/rules/unwrap_usage.rs) -/

/-- `RuleContext::line_col` (src/rules/mod.rs lines 82-87): the span
resolver is a stub that always returns `(1, 1)`. -/
def line_col : Nat × Nat := (1, 1)

/-- The suggestion text chosen by `UnwrapVisitor::report_unwrap`
(src/rules/unwrap_usage.rs lines 29-34). -/
def unwrapSuggestion (m : String) : String :=
  if m = "unwrap" then
    "Consider using `match`, `if let`, or `expect()` with a descriptive message"
  else if m = "unwrap_or_default" then
    "This is generally safe, but consider explicit handling"
  else if m = "expect" then "Good! Using expect() with descriptive messages"
  else "Consider explicit error handling"

/-- The severity chosen by `UnwrapVisitor::report_unwrap`
(src/rules/unwrap_usage.rs lines 36-40): Warning for `unwrap`, Error for
`unwrap_unchecked`, Info otherwise. -/
def unwrapSeverity (m : String) : Severity :=
  if m = "unwrap" then .warning
  else if m = "unwrap_unchecked" then .error
  else .info

/-- `UnwrapVisitor::report_unwrap` (src/rules/unwrap_usage.rs lines 28-65). -/
def report_unwrap (m : String) (line col : Nat) : Issue :=
  { rule := "unwrap_usage"
    severity := unwrapSeverity m
    message := "Found `" ++ m ++ "()` call - " ++ unwrapSuggestion m
    location := { line := line, column := col, endLine := some line
                  endColumn := some (col + m.length) }
    fix :=
      if m = "unwrap" then
        some { description := "Replace with expect() and descriptive message"
               replacements :=
                 [{ start := 0, stop := 0
                    text := "expect(\"TODO: Add descriptive error message\")".toList }] }
      else none }

/-- `func_name.contains("unwrap")` from `visit_expr_call`
(src/rules/unwrap_usage.rs line 89). -/
def containsUnwrap (f : String) : Bool :=
  decide (List.IsInfix "unwrap".toList f.toList)

mutual

/-- The `Visit` traversal of `UnwrapVisitor` over an expression
(src/rules/unwrap_usage.rs lines 68-98): report at a matching method call
or `unwrap`-named path call, then keep visiting the children (receiver
first, then arguments, as `syn::visit` does). -/
def unwrapVisitExpr : RExpr → List Issue
  | .ifE c t e => unwrapVisitExpr c ++ unwrapVisitStmts t ++ unwrapVisitOptExpr e
  | .matchE s arms => unwrapVisitExpr s ++ unwrapVisitExprs arms
  | .whileE c b => unwrapVisitExpr c ++ unwrapVisitStmts b
  | .forE it b => unwrapVisitExpr it ++ unwrapVisitStmts b
  | .loopE b => unwrapVisitStmts b
  | .binary _ l r => unwrapVisitExpr l ++ unwrapVisitExpr r
  | .methodCall recv m args =>
    (if m = "unwrap" ∨ m = "unwrap_or_default" ∨ m = "unwrap_unchecked" ∨ m = "expect"
      then [report_unwrap m line_col.1 line_col.2]
      else [])
      ++ unwrapVisitExpr recv ++ unwrapVisitExprs args
  | .callPath f args =>
    (if containsUnwrap f then [report_unwrap f line_col.1 line_col.2] else [])
      ++ unwrapVisitExprs args
  | .pathE _ => []
  | .litStr _ => []
  | .litInt _ => []

/-- Visitor traversal of an optional expression. -/
def unwrapVisitOptExpr : Option RExpr → List Issue
  | none => []
  | some e => unwrapVisitExpr e

/-- Visitor traversal of a list of expressions. -/
def unwrapVisitExprs : List RExpr → List Issue
  | [] => []
  | e :: rest => unwrapVisitExpr e ++ unwrapVisitExprs rest

/-- Visitor traversal of a statement. -/
def unwrapVisitStmt : RStmt → List Issue
  | .exprS e _ => unwrapVisitExpr e
  | .localS oe => unwrapVisitOptExpr oe
  | .itemS => []

/-- Visitor traversal of a list of statements. -/
def unwrapVisitStmts : List RStmt → List Issue
  | [] => []
  | s :: rest => unwrapVisitStmt s ++ unwrapVisitStmts rest

end

/-- `UnwrapUsageRule::check` (src/rules/unwrap_usage.rs lines 12-16): run
the visitor over the whole file. -/
def unwrapUsageCheck (items : List RItem) : List Issue :=
  match items with
  | [] => []
  | .fnItem _ body :: rest => unwrapVisitStmts body ++ unwrapUsageCheck rest
  | _ :: rest => unwrapUsageCheck rest

/-- The parsed form of a file whose `main` holds the bare statement
`map.get("key").unwrap();`. -/
def unwrapExampleFile : List RItem :=
  [.fnItem "main"
    [.exprS (.methodCall (.methodCall (.pathE "map") "get" [.litStr "key"]) "unwrap" [])
      true]]

/-! ## Theorem about the unwrap-usage rule wiring (claim C3) -/

/-- C3: with the default configuration no produced issue can have rule
"unwrap_usage", because `get_enabled_rules` never registers the
`UnwrapUsageRule` under any configuration — even though the default config
sets `check_unwrap_usage = true` and the visitor implemented in
src/rules/unwrap_usage.rs, run on `map.get("key").unwrap();`, would produce
exactly the Warning issue the claim describes (at the stubbed location
`(1, 1)`).  This pins the divergence between the claim (an `unwrap_usage`
Warning is produced) and the code (the rule is unreachable). -/
theorem unwrap_rule_never_registered :
    defaultConfig.rules.checkUnwrapUsage = true ∧
    (∀ config : Config, RuleId.unwrapUsage ∉ get_enabled_rules config) ∧
    unwrapUsageCheck unwrapExampleFile =
      [{ rule := "unwrap_usage"
         severity := .warning
         message := "Found `unwrap()` call - Consider using `match`, `if let`, or `expect()` with a descriptive message"
         location := { line := 1, column := 1, endLine := some 1, endColumn := some 7 }
         fix := some
           { description := "Replace with expect() and descriptive message"
             replacements :=
               [{ start := 0, stop := 0
                  text := "expect(\"TODO: Add descriptive error message\")".toList }] } }] := by
  refine ⟨rfl, ?_, by decide⟩
  intro config
  simp [get_enabled_rules]

/-! ## Unmatched-delimiters rule (src/rules/syntax.rs) -/

/-- Rust `str::lines` on the byte-list model.  When the content is empty or
ends in a newline this produces one extra trailing empty line; an empty line
holds no characters, so it never affects the brace scan or issue lines. -/
def splitLinesCh (cs : List Char) : List (List Char) :=
  cs.foldr
    (fun c acc =>
      if c = '\n' then [] :: acc
      else
        match acc with
        | [] => [[c]]
        | l :: ls => (c :: l) :: ls)
    [[]]

/-- The issue reported by `UnmatchedDelimitersRule::check` (src/rules/syntax.rs
lines 32-43) when the brace depth goes negative. -/
def unmatchedIssue (line col : Nat) : Issue :=
  { rule := "unmatched-delimiters"
    severity := .error
    message := "Unmatched closing brace"
    location := { line := line, column := col, endLine := none, endColumn := none }
    fix := none }

/-- One character of `UnmatchedDelimitersRule::check`'s scan
(src/rules/syntax.rs lines 24-48), threading (issues, depth, column).  The
source declares `in_string` and `in_comment` as immutable `false` and never
updates them — there is no string/char/comment state machine — so the brace
guards are vacuous; they are kept here exactly as written. -/
def unmatchedCharStep (lineNo : Nat) (acc : List Issue × Int × Nat) (ch : Char) :
    List Issue × Int × Nat :=
  let inString := false
  let inComment := false
  let col := acc.2.2 + 1
  if ch == '{' && !inString && !inComment then
    (acc.1, acc.2.1 + 1, col)
  else if ch == '}' && !inString && !inComment then
    let depth := acc.2.1 - 1
    (if depth < 0 then acc.1 ++ [unmatchedIssue lineNo col] else acc.1, depth, col)
  else (acc.1, acc.2.1, col)

/-- `UnmatchedDelimitersRule::check` (src/rules/syntax.rs lines 10-55): scan
every line, with the depth carried across lines and the column reset per
line; lines are 1-based. -/
def unmatched_delimiters_check (content : List Char) : List Issue :=
  ((splitLinesCh content).enum.foldl
    (fun acc p =>
      let r := p.2.foldl (unmatchedCharStep (p.1 + 1)) (acc.1, acc.2, 0)
      (r.1, r.2.1))
    (([] : List Issue), (0 : Int))).1

/-! ## Naming-convention rule (src/rules/style.rs) -/

/-- `is_snake_case` (src/rules/style.rs lines 118-120). -/
def is_snake_case (s : String) : Bool :=
  s.toList.all fun c => c.isLower || c.isDigit || c == '_'

/-- `is_pascal_case` (src/rules/style.rs lines 122-125). -/
def is_pascal_case (s : String) : Bool :=
  (match s.toList with
    | [] => false
    | c :: _ => c.isUpper)
    && s.toList.all (·.isAlphanum)

/-- `to_snake_case` (src/rules/style.rs lines 127-136): insert `_` before
each interior uppercase letter, then lowercase. -/
def to_snake_case (s : String) : String :=
  String.mk (s.toList.enum.foldl
    (fun acc p =>
      acc ++ (if p.2.isUpper && decide (0 < p.1) then ['_'] else []) ++ [p.2.toLower])
    [])

/-- Rust `str::starts_with` on the byte-list model. -/
def strStartsWith (s pat : String) : Bool :=
  pat.toList.isPrefixOf s.toList

/-- The per-item body of `NamingConventionRule::check` (src/rules/style.rs
lines 14-61): function identifiers must be snake_case unless they start with
`test_`; struct identifiers must be PascalCase, with no exemption. -/
def naming_check_item : RItem → Option Issue
  | .fnItem name _ =>
    if !(is_snake_case name) && !(strStartsWith name "test_") then
      some { rule := "naming-convention"
             severity := .warning
             message := "Function '" ++ name ++ "' should be snake_case"
             location := { line := line_col.1, column := line_col.2
                           endLine := none, endColumn := none }
             fix := some { description := "Convert to snake_case"
                           replacements :=
                             [{ start := 0, stop := 0
                                text := (to_snake_case name).toList }] } }
    else none
  | .structItem name =>
    if !(is_pascal_case name) then
      some { rule := "naming-convention"
             severity := .warning
             message := "Struct '" ++ name ++ "' should be PascalCase"
             location := { line := line_col.1, column := line_col.2
                           endLine := none, endColumn := none }
             fix := none }
    else none
  | .otherItem => none

/-- `NamingConventionRule::check` over a file's top-level items. -/
def naming_convention_check (items : List RItem) : List Issue :=
  items.filterMap naming_check_item

/-! ## Theorems about the syntax and naming rules (claims C7, C8) -/

/-- C7: on the valid Rust file `fn f() { let s = "}}"; }` the
unmatched-delimiters check reports two Error issues, the first at line 1
column 20 — the second `}` *inside the string literal* (the quotes sit at
columns 18 and 21).  The claimed string/char/comment state machine does not
exist: `in_string`/`in_comment` are immutable `false`, every brace is
counted, and a `}` inside a string literal does drive the depth negative
and produce an "Unmatched closing brace" Error, contradicting the claim
and the rule's own premise that parsed files have matching delimiters. -/
theorem brace_in_string_reported :
    unmatched_delimiters_check "fn f() \x7b let s = \"\x7d\x7d\"; \x7d".toList =
      [unmatchedIssue 1 20, unmatchedIssue 1 24] ∧
    unmatched_delimiters_check "fn f() \x7b let s = \"\x7d\x7d\"; \x7d".toList ≠ [] := by
  decide

/-- C8: a top-level function item whose identifier starts with `test_` is
never reported by the naming-convention rule, whatever the rest of the
identifier looks like; the exemption does not extend to structs — the
struct `test_DoThing` is still reported as not PascalCase. -/
theorem test_prefix_fn_exempt (name : String) (body : List RStmt)
    (h : strStartsWith name "test_" = true) :
    naming_check_item (.fnItem name body) = none ∧
    naming_convention_check [.fnItem name body] = [] ∧
    naming_check_item (.structItem "test_DoThing") =
      some { rule := "naming-convention"
             severity := .warning
             message := "Struct 'test_DoThing' should be PascalCase"
             location := { line := 1, column := 1, endLine := none, endColumn := none }
             fix := none } := by
  have hnone : naming_check_item (.fnItem name body) = none := by
    simp [naming_check_item, h]
  exact ⟨hnone, by simp [naming_convention_check, hnone], by decide⟩

/-- Witness for `test_prefix_fn_exempt`: the non-snake_case function
`test_DoThing` is exempt. -/
theorem test_prefix_fn_exempt_witness :
    naming_check_item (RItem.fnItem "test_DoThing" []) = none ∧
    is_snake_case "test_DoThing" = false := by
  have h := test_prefix_fn_exempt "test_DoThing" [] (by decide)
  exact ⟨h.1, by decide⟩

end CargoFastLint
